import Mathlib

/-!
Verification of the cache package of Kavec/cayley against its specification.

The development shallowly embeds the Go sources:
- src/cache/stream_materializer.go : size/timeout options, parseSizeBytes,
  Cache.Request hit decision, the per-client stream materializer;
- src/cache/request.go and the request file in src/unnamed/part_000 :
  the per-request multiplexer goroutine (newRequest), getValue;
- src/unnamed/part_000 : the Fuzz harness for Size option parsing.

Machine integers (int, int64, time.Duration in nanoseconds) are embedded as
Int; the values involved in the claims are tiny so no overflow reduction is
needed.  Go's multiple-return (T, error) becomes an explicit result type, and
a Go panic becomes an explicit outcome constructor.
-/

/- ------------------------------------------------------------------ -/
/- Size parsing: stream_materializer.go lines 260-293                  -/
/- ------------------------------------------------------------------ -/

/-- The unit character class of the regex sizexp, namely [kmgtpKMGTP]. -/
def isUnitChar (c : Char) : Bool :=
  c = 'k' || c = 'm' || c = 'g' || c = 't' || c = 'p' ||
  c = 'K' || c = 'M' || c = 'G' || c = 'T' || c = 'P'

/-- Consume the optional fraction "(?:\.[0-9]*)?" of sizexp.  The pieces of
the anchored regex use pairwise disjoint leading characters, so the greedy
left-to-right scan below is exactly the regex's leftmost-first semantics. -/
def dropFraction (s : List Char) : List Char :=
  match s with
  | '.' :: r => r.dropWhile Char.isDigit
  | _ => s

/-- Consume the optional single space " ?" of sizexp. -/
def dropSpaceOpt (s : List Char) : List Char :=
  match s with
  | ' ' :: r => r
  | _ => s

/-- Consume the capture group "([kmgtpKMGTP]?)" of sizexp, returning the
captured characters and the rest of the input. -/
def unitTake (s : List Char) : List Char × List Char :=
  match s with
  | c :: r => if isUnitChar c then ([c], r) else ([], c :: r)
  | [] => ([], [])

/-- Consume the optional trailing "[bB]?" of sizexp. -/
def dropBOpt (s : List Char) : List Char :=
  match s with
  | c :: r => if c = 'b' || c = 'B' then r else c :: r
  | [] => []

/-- The input remaining at the capture group, after "[0-9]*(?:\.[0-9]*)? ?"
has been consumed; the first component is the capture group's text. -/
def sizexpTail (s : List Char) : List Char × List Char :=
  unitTake (dropSpaceOpt (dropFraction (s.dropWhile Char.isDigit)))

/-- The text consumed by the numeric portion "[0-9]*(?:\.[0-9]*)?". -/
def sizexpNum (s : List Char) : List Char :=
  s.takeWhile Char.isDigit ++
    (match s.dropWhile Char.isDigit with
     | '.' :: r => '.' :: r.takeWhile Char.isDigit
     | _ => [])

/-- regexp.MustCompile of the anchored pattern, as used through
FindStringSubmatch: on a match it yields (numeric text, capture group 1);
group 1 is the UNIT letter, the numeric portion is not a capture group. -/
def sizexpMatch (s : List Char) : Option (List Char × List Char) :=
  if dropBOpt (sizexpTail s).2 = [] then
    some (sizexpNum s, (sizexpTail s).1)
  else
    none

/-- A Go float64 produced by strconv.ParseFloat: a finite value (kept exact
as a rational), an infinity, or a NaN. -/
inductive GoFloat
  | rat : Rat → GoFloat
  | posInf : GoFloat
  | negInf : GoFloat
  | nan : GoFloat
deriving DecidableEq

/-- Numeric value of a digit string. -/
def digitsVal (ds : List Char) : Nat :=
  ds.foldl (fun a c => 10 * a + (c.toNat - 48)) 0

/-- Parse the decimal mantissa: digits with an optional fraction, requiring
at least one digit overall; returns the value and the remaining input. -/
def parseMantissa (s : List Char) : Option (Rat × List Char) :=
  let intPart := s.takeWhile Char.isDigit
  let rest1 := s.dropWhile Char.isDigit
  match rest1 with
  | '.' :: r2 =>
    let fracPart := r2.takeWhile Char.isDigit
    let rest2 := r2.dropWhile Char.isDigit
    if intPart = [] ∧ fracPart = [] then none
    else some ((digitsVal intPart : Rat) +
                 (digitsVal fracPart : Rat) / (10 : Rat) ^ fracPart.length,
               rest2)
  | _ => if intPart = [] then none else some ((digitsVal intPart : Rat), rest1)

/-- Scale a mantissa by the parsed exponent. -/
def applyExp (q : Rat) (eneg : Bool) (edigits : Nat) : Rat :=
  if eneg then q / (10 : Rat) ^ edigits else q * (10 : Rat) ^ edigits

/-- strconv.ParseFloat(s, 64), modelled on decimal syntax with the
inf/infinity/nan specials (the hex-float and underscore forms cannot arise
for the strings this development feeds in, which are the possible values of
the sizexp capture group).  Finite values are kept exact; none means a
non-nil parse error. -/
def goParseFloat (s : List Char) : Option GoFloat :=
  let signSplit : Bool × List Char :=
    match s with
    | '+' :: r => (false, r)
    | '-' :: r => (true, r)
    | _ => (false, s)
  let neg := signSplit.1
  let s1 := signSplit.2
  let lower := s1.map Char.toLower
  if lower = ['i', 'n', 'f'] ∨ lower = ['i', 'n', 'f', 'i', 'n', 'i', 't', 'y'] then
    some (if neg then GoFloat.negInf else GoFloat.posInf)
  else if lower = ['n', 'a', 'n'] then
    some GoFloat.nan
  else
    match parseMantissa s1 with
    | none => none
    | some (m, rest) =>
      match rest with
      | [] => some (GoFloat.rat (if neg then -m else m))
      | e :: r2 =>
        if e = 'e' ∨ e = 'E' then
          let esplit : Bool × List Char :=
            match r2 with
            | '+' :: r => (false, r)
            | '-' :: r => (true, r)
            | _ => (false, r2)
          let eds := esplit.2.takeWhile Char.isDigit
          let r4 := esplit.2.dropWhile Char.isDigit
          if eds = [] ∨ r4 ≠ [] then none
          else some (GoFloat.rat (applyExp (if neg then -m else m) esplit.1 (digitsVal eds)))
        else none

/-- Outcome of a Go call returning (int64, error): a normal return carrying
the pair, or a runtime panic. -/
inductive ParseOutcome
  | ret : Int → Option String → ParseOutcome
  | panicked : String → ParseOutcome
deriving DecidableEq

/-- parseSizeBytes from stream_materializer.go.  FindStringSubmatch yields
m = [whole, unit] (the pattern has exactly one capture group, the unit
letter), so the code's strconv.ParseFloat(m[1], 64) receives the UNIT text,
never the numeric portion.  Were ParseFloat ever to succeed, the switch on
strings.ToLower(m[2]) would index out of range, a runtime panic. -/
def parseSizeBytes (sz : String) : ParseOutcome :=
  match sizexpMatch sz.toList with
  | none => .ret 0 (some ("Unable to parse size string " ++ sz))
  | some (_num, unit) =>
    match goParseFloat unit with
    | none =>
      .ret 0 (some ("strconv.ParseFloat: parsing \"" ++ String.mk unit ++
                    "\": invalid syntax"))
    | some _f => .panicked "runtime error: index out of range"

/- ------------------------------------------------------------------ -/
/- The Size option: stream_materializer.go lines 209-226               -/
/- ------------------------------------------------------------------ -/

/-- A Go interface value handed to Size: an int64, a string, or a value of
any other dynamic type (carrying just its type name). -/
inductive GoVal
  | i64 : Int → GoVal
  | str : String → GoVal
  | other : String → GoVal
deriving DecidableEq

/-- The configuration fields of the Cache struct touched by the options. -/
structure CacheCfg where
  timeout : Int
  sizeBytes : Int
deriving DecidableEq

/-- Outcome of applying a CacheOption to a cache: nil error with the updated
cache, a non-nil error with the cache as it was, or an escaped panic. -/
inductive OptionApp
  | ok : CacheCfg → OptionApp
  | fail : String → CacheCfg → OptionApp
  | panicked : String → OptionApp
deriving DecidableEq

/-- The Size cache option.  On the string path the assignment to
c.sizeBytes happens strictly after the error check, so an error return
leaves the cache untouched. -/
def sizeOption : GoVal → CacheCfg → OptionApp
  | .i64 n, c => .ok {c with sizeBytes := n}
  | .str s, c =>
    match parseSizeBytes s with
    | .ret _sb (some e) => .fail e c
    | .ret sb none => .ok {c with sizeBytes := sb}
    | .panicked m => .panicked m
  | .other t, c =>
    .fail ("Unable to convert " ++ t ++ " into int64 (n_bytes)") c

/-- A Size argument the claims call malformed: a string parseSizeBytes
rejects, or a value that is neither int64 nor string. -/
def badSizeArg : GoVal → Bool
  | .i64 _ => false
  | .str s =>
    match parseSizeBytes s with
    | .ret _ (some _) => true
    | _ => false
  | .other _ => true

/- ------------------------------------------------------------------ -/
/- Cache.Request hit decision and the Timeout option:                  -/
/- stream_materializer.go lines 228-256                                -/
/- ------------------------------------------------------------------ -/

/-- The fields of the Cache struct that Request's hit test reads: the
timeout (a time.Duration in nanoseconds) and the stable table, with each
present key mapped to the birth timestamp of its cachedRequest. -/
structure CacheModel where
  timeout : Int
  stable : String → Option Int

/-- The Timeout cache option: stores the duration verbatim, with no
special handling of zero. -/
def timeoutOption (t : Int) (c : CacheModel) : CacheModel :=
  {c with timeout := t}

/-- The hit decision of Cache.Request at wall-clock time now, translated
from: cr, hit := c.stable[query]; if hit && time.Since(cr.birth) < c.timeout.
The immutable parameter is declared by the source but never read by it. -/
def requestHit (c : CacheModel) (now : Int) (query : String)
    (immutable : Bool) : Bool :=
  match c.stable query with
  | some birth => decide (now - birth < c.timeout)
  | none => false

/-- A concrete cache with timeout 5 whose stable table holds one entry, for
query "q", born at time 0. -/
def exCache : CacheModel :=
  ⟨5, fun q => if q = "q" then some 0 else none⟩

/- ------------------------------------------------------------------ -/
/- The request multiplexer goroutine: newRequest in                    -/
/- src/unnamed/part_000 lines 79-148 (request.go lines 62-138 shares   -/
/- the same pull-spawning and fan-out logic verbatim; its ask-serving   -/
/- branch additionally skips stale view items)                         -/
/- ------------------------------------------------------------------ -/

/-- An opaque graph.Value. -/
structure GraphValue where
  id : Nat
deriving DecidableEq

/-- An opaque Go error value. -/
structure GoError where
  msg : String
deriving DecidableEq

/-- What one invocation of the backend dbStream yields: the pair returned
by Materialize() and, when ok is false, what dbStream.Error() then reports
(the assignment r.err = r.dbStream.Error() in the pull goroutine). -/
structure PullResult where
  val : GraphValue
  ok : Bool
  errAfter : Option GoError
deriving DecidableEq

/-- The valueAsk a waiter reads off its out channel. -/
structure Answer where
  index : Int
  value : GraphValue
  err : Option GoError
deriving DecidableEq

/-- State of one request's coordinating goroutine.  view is r.view (the
cacheItem payloads); waiting is the local waiting slice of out-channel
identities in append order; err is r.err; outstanding counts spawned pull
goroutines whose result has not yet been received on the materialized
channel; pulls counts total dbStream.Materialize invocations; log records
every answer delivered, as (channel identity, answer). -/
structure ReqState where
  view : List GraphValue
  waiting : List Nat
  err : Option GoError
  outstanding : Nat
  pulls : Nat
  log : List (Nat × Answer)
deriving DecidableEq

/-- The goroutine's state at launch: empty view, waiting nil, no error. -/
def initReq : ReqState := ⟨[], [], none, 0, 0, []⟩

/-- The case pipe := <-r.asks of the select loop.  index is ask.index
(asks arrive through getValue, which clamps it to be non-negative); ch
identifies pipe.out.  A hit answers from the view with no error; a miss
spawns a pull goroutine exactly when the waiting list is nil, then appends
pipe.out to waiting. -/
def stepAsk (s : ReqState) (index : Nat) (ch : Nat) : ReqState :=
  if h : index < s.view.length then
    {s with log := s.log ++ [(ch, ⟨(index : Int), s.view.get ⟨index, h⟩, none⟩)]}
  else if s.waiting = [] then
    {s with waiting := [ch], outstanding := s.outstanding + 1,
            pulls := s.pulls + 1}
  else
    {s with waiting := s.waiting ++ [ch]}

/-- The case val := <-materialized of the select loop, receivable only
while a pull goroutine is outstanding.  The oracle gives each Materialize
invocation's result in order.  Every waiter is sent the same val and the
same current r.err (the fan-out answers carry index 0: the source sets only
value and err), then the waiting list is cleared.  Note r.view is NOT
appended to anywhere in the source. -/
def stepComplete (oracle : Nat → PullResult) (s : ReqState) : ReqState :=
  if s.outstanding = 0 then s
  else
    let res := oracle (s.pulls - 1)
    let err' := if res.ok then s.err else res.errAfter
    {s with err := err',
            outstanding := s.outstanding - 1,
            waiting := [],
            log := s.log ++ s.waiting.map (fun ch => (ch, ⟨0, res.val, err'⟩))}

/-- One iteration of the select loop: an arriving ask or an arriving pull
result. -/
inductive ReqEvent
  | ask : Nat → Nat → ReqEvent
  | complete : ReqEvent
deriving DecidableEq

/-- Dispatch one select-loop iteration. -/
def stepEvent (oracle : Nat → PullResult) (s : ReqState) : ReqEvent → ReqState
  | .ask i ch => stepAsk s i ch
  | .complete => stepComplete oracle s

/-- Run the goroutine over a sequence of select-loop iterations. -/
def runReq (oracle : Nat → PullResult) (evs : List ReqEvent) (s : ReqState) :
    ReqState :=
  evs.foldl (stepEvent oracle) s

/-- The invariant relating outstanding pulls to the waiting list: at most
one pull goroutine is live, and none is live while waiting is nil. -/
def ReqInv (s : ReqState) : Prop :=
  s.outstanding ≤ 1 ∧ (s.waiting = [] → s.outstanding = 0)

/-- A backend whose every pull yields value 7. -/
def oracleConst : Nat → PullResult := fun _ => ⟨⟨7⟩, true, none⟩

/-- A backend yielding 7 on the first pull and 8 afterwards. -/
def oracleSeq : Nat → PullResult :=
  fun n => if n = 0 then ⟨⟨7⟩, true, none⟩ else ⟨⟨8⟩, true, none⟩

/-- A backend whose first pull fails with an error and whose later pulls
succeed with value 9. -/
def oracleErrFirst : Nat → PullResult :=
  fun n => if n = 0 then ⟨⟨0⟩, false, some ⟨"backend failure"⟩⟩
           else ⟨⟨9⟩, true, none⟩

/-- A state in which a pull is in flight with one waiter, channel 9. -/
def exWaitState : ReqState := ⟨[], [9], none, 1, 1, []⟩

/-- A state in which a backend error has been recorded after one completed
pull, with no waiter and nothing materialized. -/
def exErrState : ReqState := ⟨[], [], some ⟨"backend failure"⟩, 0, 1, []⟩

/- ------------------------------------------------------------------ -/
/- The client stream materializer: stream_materializer.go lines 23-102 -/
/- ------------------------------------------------------------------ -/

/-- The stream struct fields its methods read and write directly. -/
structure StreamState where
  index : Int
  closed : Bool
  err : Option GoError
deriving DecidableEq

/-- Outcome of a stream method that can panic on usage errors. -/
inductive StreamOp (α : Type)
  | ok : α → StreamOp α
  | usageError : String → StreamOp α
deriving DecidableEq

/-- stream.Reset: panics on a closed stream, otherwise signals the process
goroutine, which sets the cursor back to 0 (rendered synchronously). -/
def streamReset (st : StreamState) : StreamOp StreamState :=
  if st.closed then .usageError "Cannot reset closed stream"
  else .ok {st with index := 0}

/-- stream.Materialize: panics on a closed stream, otherwise returns the
pair read from the values channel (supplied here as recv). -/
def streamMaterialize (recv : GraphValue × Bool) (st : StreamState) :
    StreamOp (GraphValue × Bool) :=
  if st.closed then .usageError "Cannot materialize from closed stream"
  else .ok recv

/-- stream.Close: on a closed stream returns the recorded error with no
further effect; otherwise marks the stream closed (closing the reset
channel and deregistering from the host) and returns the recorded error. -/
def streamClose (st : StreamState) : Option GoError × StreamState :=
  if st.closed then (st.err, st)
  else (st.err, {st with closed := true})

/- ------------------------------------------------------------------ -/
/- request.getValue: src/unnamed/part_000 lines 168-187                -/
/- (request.go lines 155-166 clamps through the pointer identically)   -/
/- ------------------------------------------------------------------ -/

/-- The index request.getValue actually submits in its valueAsk, given the
index argument: if index < 0 then index = 0. -/
def getValueAskIndex (index : Int) : Int :=
  if index < 0 then 0 else index

/- ------------------------------------------------------------------ -/
/- Helper lemmas                                                       -/
/- ------------------------------------------------------------------ -/

/-- The sizexp capture group is empty or a single unit letter. -/
theorem unitTake_shape (x : List Char) :
    (unitTake x).1 = [] ∨
      ∃ c, (unitTake x).1 = [c] ∧ isUnitChar c = true := by
  cases x with
  | nil => left; rfl
  | cons c r =>
    cases h : isUnitChar c with
    | false => left; simp [unitTake, h]
    | true => right; exact ⟨c, by simp [unitTake, h], h⟩

/-- Shape of the capture group as it comes out of sizexpTail. -/
theorem sizexpTail_shape (s : List Char) :
    (sizexpTail s).1 = [] ∨
      ∃ c, (sizexpTail s).1 = [c] ∧ isUnitChar c = true :=
  unitTake_shape (dropSpaceOpt (dropFraction (s.dropWhile Char.isDigit)))

/-- ParseFloat rejects each single unit letter. -/
theorem goParseFloat_unitChar (c : Char) (h : isUnitChar c = true) :
    goParseFloat [c] = none := by
  simp only [isUnitChar, Bool.or_eq_true, decide_eq_true_eq] at h
  rcases h with ((((((((h | h) | h) | h) | h) | h) | h) | h) | h) | h <;>
    subst h <;> rfl

/-- ParseFloat rejects the empty string. -/
theorem goParseFloat_nil : goParseFloat [] = none := rfl

/-- On any sizexp match, ParseFloat applied to m[1] (the capture group,
which is the unit letter) fails. -/
theorem sizexpMatch_goParseFloat (s num unit : List Char)
    (h : sizexpMatch s = some (num, unit)) : goParseFloat unit = none := by
  unfold sizexpMatch at h
  split at h
  · simp only [Option.some.injEq, Prod.mk.injEq] at h
    obtain ⟨-, hu⟩ := h
    rcases sizexpTail_shape s with h0 | ⟨c, hc, hcu⟩
    · rw [← hu, h0]
      exact goParseFloat_nil
    · rw [← hu, hc]
      exact goParseFloat_unitChar c hcu
  · exact absurd h (by simp)

/-- parseSizeBytes returns (0, non-nil error) on every input: either the
regex rejects the string, or ParseFloat rejects the captured unit text. -/
theorem parseSizeBytes_shape (sz : String) :
    ∃ msg, parseSizeBytes sz = ParseOutcome.ret 0 (some msg) := by
  unfold parseSizeBytes
  split
  · exact ⟨_, rfl⟩
  · rename_i num unit heq
    rw [sizexpMatch_goParseFloat sz.toList num unit heq]
    exact ⟨_, rfl⟩

/- ------------------------------------------------------------------ -/
/- Claim theorems                                                      -/
/- ------------------------------------------------------------------ -/

/-- Claim C9: whenever parseSizeBytes returns a non-nil error the byte
count it returns is exactly 0, and on every input the returned byte count
is non-negative. -/
theorem parse_size_error_zero :
    ∀ (sz : String) (b : Int) (e : Option String),
      parseSizeBytes sz = ParseOutcome.ret b e →
      (e ≠ none → b = 0) ∧ 0 ≤ b := by
  intro sz b e h
  obtain ⟨msg, hm⟩ := parseSizeBytes_shape sz
  rw [hm] at h
  injection h with h1 h2
  subst h1
  exact ⟨fun _ => rfl, le_refl 0⟩

/-- Witness for C9 at the concrete input "bogus". -/
theorem parse_size_error_zero_witness :
    ((some "Unable to parse size string bogus" ≠ (none : Option String)) →
      (0 : Int) = 0) ∧ (0 : Int) ≤ 0 :=
  parse_size_error_zero "bogus" 0
    (some "Unable to parse size string bogus") rfl

/-- Claim C6: the size strings "1GB", "1024MB", "1048576KB" and
"1073741824" are all rejected with byte count 0 instead of yielding
1073741824, because the single capture group of sizexp is the unit letter,
so strconv.ParseFloat receives "G", "M", "K" and "" respectively and fails. -/
theorem size_parse_capture_group_bug :
    parseSizeBytes "1GB" =
      ParseOutcome.ret 0
        (some "strconv.ParseFloat: parsing \"G\": invalid syntax") ∧
    parseSizeBytes "1024MB" =
      ParseOutcome.ret 0
        (some "strconv.ParseFloat: parsing \"M\": invalid syntax") ∧
    parseSizeBytes "1048576KB" =
      ParseOutcome.ret 0
        (some "strconv.ParseFloat: parsing \"K\": invalid syntax") ∧
    parseSizeBytes "1073741824" =
      ParseOutcome.ret 0
        (some "strconv.ParseFloat: parsing \"\": invalid syntax") :=
  ⟨rfl, rfl, rfl, rfl⟩

/-- Claim C7: for every malformed size string, and for any Size argument
that is neither int64 nor string, applying the Size option returns a
non-nil error and leaves the cache configuration exactly as it was. -/
theorem size_option_error_leaves_cfg :
    ∀ (v : GoVal) (c : CacheCfg), badSizeArg v = true →
      ∃ e, sizeOption v c = OptionApp.fail e c := by
  intro v c h
  cases v with
  | i64 n => exact absurd h (by simp [badSizeArg])
  | str s =>
    simp only [badSizeArg] at h
    simp only [sizeOption]
    rcases hp : parseSizeBytes s with ⟨b, e⟩ | m
    · rcases e with - | msg
      · rw [hp] at h; simp at h
      · exact ⟨msg, rfl⟩
    · rw [hp] at h; simp at h
  | other t => exact ⟨_, rfl⟩

/-- Witness for C7 at the concrete input Size("bogus") on a cache with
timeout 300 and byte budget 1024. -/
theorem size_option_error_leaves_cfg_witness :
    ∃ e, sizeOption (GoVal.str "bogus") ⟨300, 1024⟩ =
      OptionApp.fail e ⟨300, 1024⟩ :=
  size_option_error_leaves_cfg (GoVal.str "bogus") ⟨300, 1024⟩ (by decide)

/-- Claim C1: a Request on a stable entry decides hit purely by
time.Since(cr.birth) < c.timeout; the immutable parameter is never read, so
an immutable Request on an aged stable entry is a miss while the claim says
it is always a hit.  With exCache (timeout 5, entry "q" born at 0): at time
4 the entry hits, at time 10 the same call with immutable = true misses. -/
theorem request_immutable_ignored_bug :
    requestHit exCache 10 "q" true = false ∧
    requestHit exCache 4 "q" true = true :=
  ⟨rfl, rfl⟩

/-- Claim C5: after Timeout(0) the hit test reads age < 0, which never
holds, so every Request misses, even at age 0 and even for immutable
requests; the claim (and the source's own doc comment on Timeout) says that
zero disables expiry entirely. -/
theorem timeout_zero_expires_bug :
    (timeoutOption 0 exCache).timeout = 0 ∧
    requestHit (timeoutOption 0 exCache) 0 "q" false = false ∧
    requestHit (timeoutOption 0 exCache) 1 "q" true = false :=
  ⟨rfl, rfl, rfl⟩

/-- Claim C8: after Close, Reset and Materialize are usage errors (panics),
the closed handle keeps its last recorded error, and a second Close just
returns that error with no further effect. -/
theorem closed_stream_ops :
    ∀ (st : StreamState) (recv : GraphValue × Bool),
      streamReset (streamClose st).2 =
        StreamOp.usageError "Cannot reset closed stream" ∧
      streamMaterialize recv (streamClose st).2 =
        StreamOp.usageError "Cannot materialize from closed stream" ∧
      (streamClose st).2.err = st.err ∧
      streamClose (streamClose st).2 =
        ((streamClose st).2.err, (streamClose st).2) := by
  intro st recv
  cases hc : st.closed <;>
    simp [streamClose, streamReset, streamMaterialize, hc]

/-- Claim C10: request.getValue clamps a negative index argument to 0, so
the index it submits in its valueAsk is always non-negative. -/
theorem get_value_clamps_negative :
    ∀ i : Int, (i < 0 → getValueAskIndex i = 0) ∧ 0 ≤ getValueAskIndex i := by
  intro i
  constructor
  · intro h
    simp [getValueAskIndex, if_pos h]
  · unfold getValueAskIndex
    split <;> omega

/-- Witness for C10 at the concrete index -5. -/
theorem get_value_clamps_negative_witness :
    getValueAskIndex (-5) = 0 ∧ 0 ≤ getValueAskIndex (-5) :=
  ⟨(get_value_clamps_negative (-5)).1 (by decide),
   (get_value_clamps_negative (-5)).2⟩

/- ------------------------------------------------------------------ -/
/- Multiplexer helper lemmas                                           -/
/- ------------------------------------------------------------------ -/

/-- An ask past the view while other readers wait only joins the wait set:
no pull is spawned, nothing else changes. -/
theorem stepAsk_join (s : ReqState) (i ch : Nat)
    (hi : s.view.length ≤ i) (hw : s.waiting ≠ []) :
    stepAsk s i ch = {s with waiting := s.waiting ++ [ch]} := by
  unfold stepAsk
  rw [dif_neg (by omega), if_neg hw]

/-- An ask past the view with nobody waiting spawns exactly one pull: one
Materialize invocation, one outstanding pull goroutine, wait set [ch]. -/
theorem stepAsk_spawn (s : ReqState) (i ch : Nat)
    (hi : s.view.length ≤ i) (hw : s.waiting = []) :
    stepAsk s i ch =
      {s with waiting := [ch], outstanding := s.outstanding + 1,
              pulls := s.pulls + 1} := by
  unfold stepAsk
  rw [dif_neg (by omega), if_pos hw]

/-- ReqInv holds at goroutine launch. -/
theorem reqInv_init : ReqInv initReq :=
  ⟨by decide, fun _ => rfl⟩

/-- ReqInv is preserved by every select-loop iteration. -/
theorem reqInv_step (oracle : Nat → PullResult) (s : ReqState) (e : ReqEvent)
    (h : ReqInv s) : ReqInv (stepEvent oracle s e) := by
  obtain ⟨h1, h2⟩ := h
  cases e with
  | ask i ch =>
    show ReqInv (stepAsk s i ch)
    by_cases hview : i < s.view.length
    · unfold stepAsk
      rw [dif_pos hview]
      exact ⟨h1, h2⟩
    · by_cases hw : s.waiting = []
      · rw [stepAsk_spawn s i ch (by omega) hw]
        have h0 : s.outstanding = 0 := h2 hw
        refine ⟨?_, fun hx => absurd hx (by simp)⟩
        show s.outstanding + 1 ≤ 1
        omega
      · rw [stepAsk_join s i ch (by omega) hw]
        exact ⟨h1, fun hx => absurd hx (by simp)⟩
  | complete =>
    show ReqInv (stepComplete oracle s)
    unfold stepComplete
    split
    · exact ⟨h1, h2⟩
    · refine ⟨?_, fun _ => ?_⟩
      · show s.outstanding - 1 ≤ 1
        omega
      · show s.outstanding - 1 = 0
        omega

/-- ReqInv is preserved by any run of the select loop. -/
theorem reqInv_run (oracle : Nat → PullResult) (evs : List ReqEvent) :
    ∀ s : ReqState, ReqInv s → ReqInv (runReq oracle evs s) := by
  induction evs with
  | nil => intro s h; exact h
  | cons e rest ih =>
    intro s h
    exact ih (stepEvent oracle s e) (reqInv_step oracle s e h)

/- ------------------------------------------------------------------ -/
/- Multiplexer claim theorems                                          -/
/- ------------------------------------------------------------------ -/

/-- Counterexample for C2: after a single ask and its completed pull, the
goroutine has invoked Materialize once while the view is still empty (the
pulled value is never appended), so the invocation count exceeds the length
of the materialized view. -/
theorem pulls_exceed_view_counterexample :
    (runReq oracleConst [ReqEvent.ask 0 0, ReqEvent.complete]
        initReq).view.length <
      (runReq oracleConst [ReqEvent.ask 0 0, ReqEvent.complete]
        initReq).pulls := by
  decide

/-- Claim C2 (amended): in every reachable state at most one backend pull
is outstanding; an ask past the view joins the wait set without pulling
when someone is already waiting, and spawns exactly one pull when nobody
is. -/
theorem at_most_one_pull :
    (∀ (oracle : Nat → PullResult) (evs : List ReqEvent),
       (runReq oracle evs initReq).outstanding ≤ 1) ∧
    (∀ (s : ReqState) (i ch : Nat), s.view.length ≤ i → s.waiting ≠ [] →
       stepAsk s i ch = {s with waiting := s.waiting ++ [ch]}) ∧
    (∀ (s : ReqState) (i ch : Nat), s.view.length ≤ i → s.waiting = [] →
       stepAsk s i ch =
         {s with waiting := [ch], outstanding := s.outstanding + 1,
                 pulls := s.pulls + 1}) := by
  refine ⟨?_, ?_, ?_⟩
  · intro oracle evs
    exact (reqInv_run oracle evs initReq reqInv_init).1
  · exact stepAsk_join
  · exact stepAsk_spawn

/-- Witness for C2 at concrete inputs: a one-ask run, a join on exWaitState
(one reader already waiting), and a spawn from the initial state. -/
theorem at_most_one_pull_witness :
    (runReq oracleConst [ReqEvent.ask 0 0] initReq).outstanding ≤ 1 ∧
    stepAsk exWaitState 0 4 =
      {exWaitState with waiting := exWaitState.waiting ++ [4]} ∧
    stepAsk initReq 0 5 =
      {initReq with waiting := [5], outstanding := initReq.outstanding + 1,
                    pulls := initReq.pulls + 1} :=
  ⟨at_most_one_pull.1 oracleConst [ReqEvent.ask 0 0],
   at_most_one_pull.2.1 exWaitState 0 4 (by decide) (by decide),
   at_most_one_pull.2.2 initReq 0 5 (by decide) rfl⟩

/-- Claim C3: with two waiters and a completed pull returning value 7, both
waiters are answered with the same value 7 and no error and the wait set is
cleared, but the view stays empty (the source never appends the pulled
value), and a third reader asking the same index 0 afterwards is answered
with a fresh pull's value 8 — two readers of index 0 observed different
values, contradicting the claim. -/
theorem pull_completion_no_append_bug :
    (runReq oracleSeq [ReqEvent.ask 0 0, ReqEvent.ask 0 1, ReqEvent.complete]
        initReq).log =
      [(0, ⟨0, ⟨7⟩, none⟩), (1, ⟨0, ⟨7⟩, none⟩)] ∧
    (runReq oracleSeq [ReqEvent.ask 0 0, ReqEvent.ask 0 1, ReqEvent.complete]
        initReq).waiting = [] ∧
    (runReq oracleSeq [ReqEvent.ask 0 0, ReqEvent.ask 0 1, ReqEvent.complete]
        initReq).view = [] ∧
    (runReq oracleSeq [ReqEvent.ask 0 0, ReqEvent.ask 0 1, ReqEvent.complete,
        ReqEvent.ask 0 2, ReqEvent.complete] initReq).log =
      [(0, ⟨0, ⟨7⟩, none⟩), (1, ⟨0, ⟨7⟩, none⟩), (2, ⟨0, ⟨8⟩, none⟩)] := by
  decide

/-- Counterexample for C4: the backend fails on the first pull, recording
the error; a subsequent ask past the (empty) view nevertheless triggers a
second Materialize invocation — the stored error is not short-circuited. -/
theorem error_retriggers_pull_counterexample :
    (runReq oracleErrFirst [ReqEvent.ask 0 0, ReqEvent.complete]
        initReq).err = some ⟨"backend failure"⟩ ∧
    (runReq oracleErrFirst [ReqEvent.ask 0 0, ReqEvent.complete]
        initReq).pulls = 1 ∧
    (runReq oracleErrFirst [ReqEvent.ask 0 0, ReqEvent.complete,
        ReqEvent.ask 0 1] initReq).pulls = 2 := by
  decide

/-- Claim C4 (amended): with an error recorded and nobody waiting, an ask
past the view invokes Materialize again (one more pull); if that pull
succeeds the recorded error survives and the waiter is answered with the
new value together with the stored error. -/
theorem sticky_error_reported_but_repulls :
    ∀ (oracle : Nat → PullResult) (s : ReqState) (e : GoError) (i ch : Nat),
      s.err = some e → s.waiting = [] → s.view.length ≤ i →
      (oracle s.pulls).ok = true →
      (stepAsk s i ch).pulls = s.pulls + 1 ∧
      (stepComplete oracle (stepAsk s i ch)).err = some e ∧
      (stepComplete oracle (stepAsk s i ch)).log =
        s.log ++ [(ch, ⟨0, (oracle s.pulls).val, some e⟩)] := by
  intro oracle s e i ch herr hw hi hok
  rw [stepAsk_spawn s i ch hi hw]
  refine ⟨rfl, ?_, ?_⟩ <;>
    simp [stepComplete, Nat.add_sub_cancel, hok, herr]

/-- Witness for C4 at the concrete state exErrState (error recorded after
one failed pull) with the oracle whose second pull succeeds with value 9. -/
theorem sticky_error_reported_but_repulls_witness :
    (stepAsk exErrState 0 3).pulls = exErrState.pulls + 1 ∧
    (stepComplete oracleErrFirst (stepAsk exErrState 0 3)).err =
      some ⟨"backend failure"⟩ ∧
    (stepComplete oracleErrFirst (stepAsk exErrState 0 3)).log =
      exErrState.log ++
        [(3, ⟨0, (oracleErrFirst exErrState.pulls).val,
              some ⟨"backend failure"⟩⟩)] :=
  sticky_error_reported_but_repulls oracleErrFirst exErrState
    ⟨"backend failure"⟩ 0 3 rfl rfl (by decide) rfl
